import Mathlib

set_option maxRecDepth 100000

/-!
Verification of the Nyaya-Saar backend (src/backend/server.js).

The development shallowly embeds the document ingestion + AI-analysis
pipeline of the Express server: the JSON value model and a model of the
JavaScript `JSON.parse` library routine, the `extractTextFromFile`
dispatcher (with the external pdf-parse / mammoth / cheerio libraries
as oracles), the `GrokAPI.generateResponse` gateway, the per-endpoint
prompt templates (transcribed verbatim from the template literals in
the source) and the per-endpoint parse/fallback response validation,
and the request handlers themselves (the external model is an oracle
parameter of each handler).
-/

/-- JSON values, as produced by the JavaScript `JSON.parse`.  Numbers keep
their source lexeme; this development never needs their numeric value. -/
inductive Json where
  | null : Json
  | bool : Bool → Json
  | num : String → Json
  | str : String → Json
  | arr : List Json → Json
  | obj : List (String × Json) → Json

/-- Whitespace skipping of the JSON grammar (space, tab, line feed,
carriage return). -/
def skipWs : List Char → List Char
  | c :: cs =>
    if c = ' ' ∨ c = '\t' ∨ c = '\n' ∨ c = '\r' then skipWs cs else c :: cs
  | [] => []

/-- Value of a hexadecimal digit. -/
def hexDigitVal (c : Char) : Option Nat :=
  let n := c.toNat
  if 48 ≤ n ∧ n ≤ 57 then some (n - 48)
  else if 97 ≤ n ∧ n ≤ 102 then some (n - 87)
  else if 65 ≤ n ∧ n ≤ 70 then some (n - 55)
  else none

/-- Reads the characters of a JSON string after the opening quote, handling
the escape sequences of the JSON grammar, up to and including the closing
quote.  Returns the decoded content and the remaining input.  Unescaped
control characters are rejected, as `JSON.parse` rejects them. -/
def parseStringChars : List Char → Option (List Char × List Char)
  | [] => none
  | '"' :: rest => some ([], rest)
  | '\\' :: '"' :: rest =>
    (parseStringChars rest).map (fun p => ('"' :: p.1, p.2))
  | '\\' :: '\\' :: rest =>
    (parseStringChars rest).map (fun p => ('\\' :: p.1, p.2))
  | '\\' :: '/' :: rest =>
    (parseStringChars rest).map (fun p => ('/' :: p.1, p.2))
  | '\\' :: 'b' :: rest =>
    (parseStringChars rest).map (fun p => (Char.ofNat 8 :: p.1, p.2))
  | '\\' :: 'f' :: rest =>
    (parseStringChars rest).map (fun p => (Char.ofNat 12 :: p.1, p.2))
  | '\\' :: 'n' :: rest =>
    (parseStringChars rest).map (fun p => ('\n' :: p.1, p.2))
  | '\\' :: 'r' :: rest =>
    (parseStringChars rest).map (fun p => ('\r' :: p.1, p.2))
  | '\\' :: 't' :: rest =>
    (parseStringChars rest).map (fun p => ('\t' :: p.1, p.2))
  | '\\' :: 'u' :: a :: b :: c :: d :: rest =>
    match hexDigitVal a, hexDigitVal b, hexDigitVal c, hexDigitVal d with
    | some ha, some hb, some hc, some hd =>
      let code := ((ha * 16 + hb) * 16 + hc) * 16 + hd
      (parseStringChars rest).map (fun p => (Char.ofNat code :: p.1, p.2))
    | _, _, _, _ => none
  | '\\' :: _ => none
  | c :: rest =>
    if c.toNat < 32 then none
    else (parseStringChars rest).map (fun p => (c :: p.1, p.2))

/-- Takes the maximal run of decimal digits. -/
def takeDigits : List Char → List Char × List Char
  | [] => ([], [])
  | c :: cs =>
    if c.isDigit then
      let p := takeDigits cs
      (c :: p.1, p.2)
    else ([], c :: cs)

/-- Exponent part of a JSON number (after the `e`/`E`). -/
def numExpPart (body : List Char) (eChar : Char) (cs : List Char) :
    Option (String × List Char) :=
  let p : List Char × List Char :=
    match cs with
    | '+' :: r => (['+'], r)
    | '-' :: r => (['-'], r)
    | _ => ([], cs)
  let q := takeDigits p.2
  if q.1.isEmpty then none
  else some (⟨body ++ [eChar] ++ p.1 ++ q.1⟩, q.2)

/-- Optional fraction and exponent of a JSON number, after the integer
part. -/
def numFracPart (body : List Char) (cs : List Char) :
    Option (String × List Char) :=
  match cs with
  | '.' :: r =>
    let p := takeDigits r
    if p.1.isEmpty then none
    else
      match p.2 with
      | 'e' :: r2 => numExpPart (body ++ '.' :: p.1) 'e' r2
      | 'E' :: r2 => numExpPart (body ++ '.' :: p.1) 'E' r2
      | rest => some (⟨body ++ '.' :: p.1⟩, rest)
  | 'e' :: r => numExpPart body 'e' r
  | 'E' :: r => numExpPart body 'E' r
  | rest => some (⟨body⟩, rest)

/-- A JSON number literal: `-?(0|[1-9][0-9]*)(.[0-9]+)?([eE][+-]?[0-9]+)?`.
Returns the lexeme. -/
def parseNumberLexeme (cs : List Char) : Option (String × List Char) :=
  let p : List Char × List Char :=
    match cs with
    | '-' :: r => (['-'], r)
    | _ => ([], cs)
  match p.2 with
  | '0' :: r => numFracPart (p.1 ++ ['0']) r
  | c :: r =>
    if c.isDigit then
      let q := takeDigits r
      numFracPart (p.1 ++ c :: q.1) q.2
    else none
  | [] => none

mutual

/-- A JSON value, fuel-indexed recursive descent. -/
def parseValue : Nat → List Char → Option (Json × List Char)
  | 0, _ => none
  | fuel + 1, cs =>
    match skipWs cs with
    | 'n' :: 'u' :: 'l' :: 'l' :: rest => some (Json.null, rest)
    | 't' :: 'r' :: 'u' :: 'e' :: rest => some (Json.bool true, rest)
    | 'f' :: 'a' :: 'l' :: 's' :: 'e' :: rest => some (Json.bool false, rest)
    | '"' :: rest =>
      match parseStringChars rest with
      | some (content, rest2) => some (Json.str ⟨content⟩, rest2)
      | none => none
    | '[' :: rest =>
      match skipWs rest with
      | ']' :: rest2 => some (Json.arr [], rest2)
      | other =>
        match parseArrayItems fuel other with
        | some (items, rest2) => some (Json.arr items, rest2)
        | none => none
    | '{' :: rest =>
      match skipWs rest with
      | '}' :: rest2 => some (Json.obj [], rest2)
      | other =>
        match parseObjItems fuel other with
        | some (fields, rest2) => some (Json.obj fields, rest2)
        | none => none
    | other =>
      match parseNumberLexeme other with
      | some (lexeme, rest) => some (Json.num lexeme, rest)
      | none => none

/-- Comma-separated items of a non-empty JSON array, up to and including
the closing bracket. -/
def parseArrayItems : Nat → List Char → Option (List Json × List Char)
  | 0, _ => none
  | fuel + 1, cs =>
    match parseValue fuel cs with
    | none => none
    | some (v, rest) =>
      match skipWs rest with
      | ',' :: rest2 =>
        match parseArrayItems fuel rest2 with
        | some (items, rest3) => some (v :: items, rest3)
        | none => none
      | ']' :: rest2 => some ([v], rest2)
      | _ => none

/-- Comma-separated members of a non-empty JSON object, up to and
including the closing brace. -/
def parseObjItems : Nat → List Char → Option (List (String × Json) × List Char)
  | 0, _ => none
  | fuel + 1, cs =>
    match skipWs cs with
    | '"' :: rest =>
      match parseStringChars rest with
      | some (keyChars, rest2) =>
        match skipWs rest2 with
        | ':' :: rest3 =>
          match parseValue fuel rest3 with
          | some (v, rest4) =>
            match skipWs rest4 with
            | ',' :: rest5 =>
              match parseObjItems fuel rest5 with
              | some (fields, rest6) => some ((⟨keyChars⟩, v) :: fields, rest6)
              | none => none
            | '}' :: rest5 => some ([(⟨keyChars⟩, v)], rest5)
            | _ => none
          | none => none
        | _ => none
      | none => none
    | _ => none

end

/-- Model of the JavaScript `JSON.parse`: `some` of the parsed value when
the whole input (modulo surrounding whitespace) is one JSON text, `none`
exactly when `JSON.parse` throws. -/
def jsonParse (s : String) : Option Json :=
  match parseValue (2 * s.length + 2) s.toList with
  | some (v, rest) =>
    match skipWs rest with
    | [] => some v
    | _ => none
  | none => none

example : jsonParse "42" = some (Json.num "42") := rfl
example : jsonParse "not json" = none := rfl
example : jsonParse "" = none := rfl
example : jsonParse " [1, true, \x22hi\x22] " =
    some (Json.arr [Json.num "1", Json.bool true, Json.str "hi"]) := rfl
example : jsonParse "\x7b\x22a\x22: [\x7b\x7d], \x22b\x22 0\x7d" = none := rfl
example : jsonParse "\x7b \x22a\x22 : [\x7b\x7d, -1.5e2] \x7d" =
    some (Json.obj [("a", Json.arr [Json.obj [], Json.num "-1.5e2"])]) := rfl
example : jsonParse "42abc" = none := rfl
example : jsonParse "\x22a\\nb\x22" = some (Json.str "a\nb") := rfl

/-- The Unicode replacement character U+FFFD, which the Node.js
`Buffer.toString("utf-8")` emits for invalid byte sequences. -/
def replChar : Char := Char.ofNat 0xFFFD

/-- Is `b` a UTF-8 continuation byte (`10xxxxxx`)? -/
def isContByte (b : Nat) : Bool := 128 ≤ b && b < 192

/-- UTF-8 decoding of a byte sequence, fuel-indexed: well-formed
sequences decode to their code point, ill-formed sequences (truncated,
overlong, surrogate or out-of-range) yield the replacement character. -/
def utf8DecodeAux : Nat → List Nat → List Char
  | 0, _ => []
  | _ + 1, [] => []
  | fuel + 1, b :: bs =>
    if b < 128 then Char.ofNat b :: utf8DecodeAux fuel bs
    else if b < 192 then replChar :: utf8DecodeAux fuel bs
    else if b < 224 then
      match bs with
      | b2 :: rest =>
        if isContByte b2 then
          let cp := (b - 192) * 64 + (b2 - 128)
          (if cp < 128 then replChar else Char.ofNat cp) ::
            utf8DecodeAux fuel rest
        else replChar :: utf8DecodeAux fuel (b2 :: rest)
      | [] => [replChar]
    else if b < 240 then
      match bs with
      | b2 :: b3 :: rest =>
        if isContByte b2 && isContByte b3 then
          let cp := (b - 224) * 4096 + (b2 - 128) * 64 + (b3 - 128)
          (if cp < 2048 ∨ (55296 ≤ cp ∧ cp ≤ 57343) then replChar
           else Char.ofNat cp) :: utf8DecodeAux fuel rest
        else replChar :: utf8DecodeAux fuel (b2 :: b3 :: rest)
      | _ => [replChar]
    else if b < 245 then
      match bs with
      | b2 :: b3 :: b4 :: rest =>
        if isContByte b2 && isContByte b3 && isContByte b4 then
          let cp := (b - 240) * 262144 + (b2 - 128) * 4096 +
            (b3 - 128) * 64 + (b4 - 128)
          (if cp < 65536 ∨ 1114111 < cp then replChar
           else Char.ofNat cp) :: utf8DecodeAux fuel rest
        else replChar :: utf8DecodeAux fuel (b2 :: b3 :: b4 :: rest)
      | _ => [replChar]
    else replChar :: utf8DecodeAux fuel bs

/-- Model of `Buffer.toString("utf-8")`, decoding the uploaded buffer. -/
def utf8Decode (bytes : List Nat) : String :=
  ⟨utf8DecodeAux (bytes.length + 1) bytes⟩

example : utf8Decode [72, 101, 108, 108, 111] = "Hello" := rfl
example : utf8Decode [] = "" := rfl
example : utf8Decode [226, 130, 172] = "€" := rfl

/-- An uploaded file as multer delivers it to the handlers: original
name, raw bytes, declared MIME type. -/
structure FileUpload where
  originalname : String
  buffer : List Nat
  mimetype : String

/-- The external document libraries used by `extractTextFromFile`:
pdf-parse (`pdf(buffer).text`), mammoth
(`extractRawText({buffer}).value`) and cheerio (`load(html); $.text()`),
as oracles.  The pdf and mammoth calls may throw; the cheerio text
extraction of a loaded document is total. -/
structure ExtractOracles where
  pdfText : List Nat → Except String String
  mammothRawText : List Nat → Except String String
  cheerioText : String → String

/-- The MIME type of `.docx` files. -/
def wordDocxMime : String :=
  "application/vnd.openxmlformats-officedocument.wordprocessingml.document"

/-- Model of `extractTextFromFile` of server.js: dispatch on the declared MIME
type; PDF and Word go to their libraries, HTML is decoded then reduced
to its text, anything else is decoded as UTF-8 verbatim.  Any library
error is caught and rethrown as the single extraction error. -/
def extractTextFromFile (lib : ExtractOracles) (file : FileUpload) :
    Except String String :=
  if file.mimetype = "application/pdf" then
    match lib.pdfText file.buffer with
    | .ok t => .ok t
    | .error _ => .error "Failed to extract text from file"
  else if file.mimetype = wordDocxMime ∨ file.mimetype = "application/msword" then
    match lib.mammothRawText file.buffer with
    | .ok t => .ok t
    | .error _ => .error "Failed to extract text from file"
  else if file.mimetype = "text/html" then
    .ok (lib.cheerioText (utf8Decode file.buffer))
  else
    .ok (utf8Decode file.buffer)

/-- JavaScript truthiness of an optional string request field:
`undefined` and the empty string are falsy. -/
def jsTruthy : Option String → Bool
  | none => false
  | some s => !s.isEmpty

/-- Failure classification of a failed axios request: the connection
timed out, a transport-level failure, or an HTTP error status. -/
inductive AxiosFailure where
  | timeout : AxiosFailure
  | transport : AxiosFailure
  | httpStatus : Nat → AxiosFailure

/-- Outcome of the axios call to the chat-completions endpoint: the
content of the first choice, or a failure. -/
inductive AxiosOutcome where
  | ok : String → AxiosOutcome
  | err : AxiosFailure → AxiosOutcome

/-- Errors thrown by `GrokAPI.generateResponse`: the missing-key
configuration error, or the single error rethrown for any failed call. -/
inductive GrokError where
  | configError : String → GrokError
  | apiError : String → GrokError
deriving DecidableEq

/-- The axios request configuration (third argument of `axios.post`) of
`GrokAPI.generateResponse`: only headers — no timeout is set. -/
structure AxiosConfig where
  timeout : Option Nat
  headers : List (String × String)

/-- The request configuration built by `GrokAPI.generateResponse`. -/
def grokRequestConfig (apiKey : String) : AxiosConfig :=
  { timeout := none
    headers := [("Authorization", "Bearer " ++ apiKey),
                ("Content-Type", "application/json")] }

/-- Model of `GrokAPI.generateResponse`: throws the configuration error when no
API key is set, returns the model content on success, and rethrows every
call failure — timeout, transport or HTTP — as the one generic API
error. -/
def generateResponse (apiKey : Option String) (outcome : AxiosOutcome) :
    Except GrokError String :=
  if jsTruthy apiKey = false then
    .error (.configError "Grok API key not configured")
  else
    match outcome with
    | .ok content => .ok content
    | .err _ => .error (.apiError "Failed to get response from Grok API")

/-- The external model as each request handler sees it: a function from
the composed prompt to the gateway outcome. -/
abbrev ModelFn := String → Except GrokError String

/-- An HTTP response: status code and JSON body. -/
structure HttpResponse where
  status : Nat
  body : Json

/-- The JSON error body sent by `res.status(s).json` with an `error`
message field. -/
def errJson (msg : String) : Json := Json.obj [("error", Json.str msg)]

/-! ## Prompt templates

Each constant below is one literal segment of a template literal of
server.js, between its interpolation points, transcribed verbatim. -/

/-- The analyze-document prompt up to the interpolated document text. -/
def analysisPromptPre : String :=
  "\n    Analyze this legal document comprehensively and provide a structured JSON response with the following:\n\n    1. **Red Flags Detection**: Identify high-risk clauses, unfair terms, excessive penalties, binding arbitration, etc.\n    2. **Clause Tagging**: Categorize clauses into types (Termination, Payment, Liability, Data Privacy, etc.)\n    3. **Statute Linking**: Link relevant clauses to Indian legal statutes and precedents\n    4. **Risk Assessment**: Overall risk level and specific concerns\n    5. **Simplified Summary**: Plain language explanation of key terms\n    6. **Multilingual Summary**: Provide summary in Hindi and English\n    7. **Recommendations**: Actionable next steps for the user\n\n    Document: "

/-- The analyze-document prompt after the document text (the JSON schema skeleton). -/
def analysisPromptPost : String :=
  "\n\n    Return JSON with this structure:\n    \x7b\n      \"redFlags\": [\n        \x7b\n          \"type\": \"penalty_clause\",\n          \"severity\": \"high|medium|low\",\n          \"description\": \"Description of the issue\",\n          \"location\": \"Where it appears\",\n          \"recommendation\": \"What to do\"\n        \x7d\n      ],\n      \"clauseTags\": [\n        \x7b\n          \"category\": \"Termination\",\n          \"clauses\": [\"clause text\"],\n          \"riskLevel\": \"high|medium|low\"\n        \x7d\n      ],\n      \"statuteLinks\": [\n        \x7b\n          \"clause\": \"relevant clause text\",\n          \"statute\": \"Indian Contract Act 1872, Section 73\",\n          \"precedent\": \"Relevant case law\",\n          \"explanation\": \"How it applies\"\n        \x7d\n      ],\n      \"riskAssessment\": \x7b\n        \"overallRisk\": \"high|medium|low\",\n        \"score\": 85,\n        \"concerns\": [\"list of main concerns\"]\n      \x7d,\n      \"simplifiedSummary\": \"Plain language summary\",\n      \"multilingualSummary\": \x7b\n        \"hindi\": \"Hindi summary\",\n        \"english\": \"English summary\",\n        \"tamil\": \"Tamil summary\",\n        \"telugu\": \"Telugu summary\"\n      \x7d,\n      \"recommendations\": [\n        \"Actionable recommendation 1\",\n        \"Actionable recommendation 2\"\n      ]\n    \x7d\n    "

/-- The simplify prompt up to the interpolated language. -/
def simplifyPromptP0 : String :=
  "\n    Simplify this legal text into plain, easy-to-understand language for "

/-- The simplify prompt between the language and the legal text. -/
def simplifyPromptP1 : String :=
  " speakers.\n    Break down complex legal concepts and jargon into simple terms.\n    Keep the meaning accurate but make it accessible.\n    \n    Legal text: "

/-- The simplify prompt after the legal text. -/
def simplifyPromptP2 : String :=
  "\n    \n    Provide:\n    1. A clear summary of what this means\n    2. Key points in bullet format\n    3. Any important warnings or red flags\n    4. Plain language explanation of complex terms\n    "

/-- The detect-red-flags prompt up to the interpolated legal text. -/
def redFlagsPromptPre : String :=
  "\n    Analyze this legal text for potential red flags or risky clauses that could be harmful to the signer.\n    Look for:\n    - High penalties or fees\n    - Binding arbitration clauses\n    - Unfair termination clauses\n    - Hidden fees or charges\n    - Unfavorable dispute resolution\n    - Excessive liability clauses\n    - Auto-renewal clauses\n    - Data privacy concerns\n    - Unfair contract terms under Indian law\n    \n    Legal text: "

/-- The detect-red-flags prompt after the legal text (the JSON array schema skeleton). -/
def redFlagsPromptPost : String :=
  "\n    \n    Return a JSON array of red flags with this structure:\n    [\n      \x7b\n        \"type\": \"penalty_clause\",\n        \"severity\": \"high|medium|low\",\n        \"description\": \"Clear description of the issue\",\n        \"location\": \"Where in the text this appears\",\n        \"recommendation\": \"What the user should do\",\n        \"indianLawReference\": \"Relevant Indian law section\"\n      \x7d\n    ]\n    "

/-- The tag-clauses prompt up to the interpolated document text. -/
def tagClausesPromptPre : String :=
  "\n    Analyze this legal document and categorize all clauses into meaningful categories.\n    Use Indian legal terminology and categories.\n    \n    Categories to use:\n    - Termination & Renewal\n    - Payment Terms & Pricing\n    - Liability & Indemnification\n    - Data Privacy & Security\n    - Intellectual Property\n    - Dispute Resolution\n    - Force Majeure\n    - Confidentiality\n    - Compliance & Regulatory\n    - Performance & Delivery\n    - Default & Remedies\n    - Governing Law & Jurisdiction\n    \n    Document: "

/-- The tag-clauses prompt after the document text (the JSON schema skeleton). -/
def tagClausesPromptPost : String :=
  "\n    \n    Return JSON with this structure:\n    \x7b\n      \"clauseTags\": [\n        \x7b\n          \"category\": \"Termination & Renewal\",\n          \"clauses\": [\n            \x7b\n              \"text\": \"exact clause text\",\n              \"riskLevel\": \"high|medium|low\",\n              \"description\": \"what this clause means\",\n              \"recommendation\": \"what to watch out for\"\n            \x7d\n          ]\n        \x7d\n      ],\n      \"summary\": \x7b\n        \"totalClauses\": 15,\n        \"highRiskClauses\": 3,\n        \"categories\": [\"list of categories found\"]\n      \x7d\n    \x7d\n    "

/-- The link-statutes prompt up to the interpolated document text. -/
def linkStatutesPromptPre : String :=
  "\n    Analyze this legal document and link relevant clauses to Indian legal statutes and precedents.\n    Focus on:\n    - Indian Contract Act 1872\n    - Consumer Protection Act 2019\n    - Information Technology Act 2000\n    - Specific Relief Act 1963\n    - Limitation Act 1963\n    - Evidence Act 1872\n    - Relevant case law from Supreme Court and High Courts\n    \n    Document: "

/-- The link-statutes prompt after the document text (the JSON schema skeleton). -/
def linkStatutesPromptPost : String :=
  "\n    \n    Return JSON with this structure:\n    \x7b\n      \"statuteLinks\": [\n        \x7b\n          \"clause\": \"relevant clause text\",\n          \"statute\": \"Indian Contract Act 1872, Section 73\",\n          \"precedent\": \"State of Maharashtra vs. Indian Hotel and Restaurants Association (2013)\",\n          \"explanation\": \"How this statute applies to the clause\",\n          \"implications\": \"What this means for the parties\",\n          \"riskLevel\": \"high|medium|low\"\n        \x7d\n      ],\n      \"summary\": \x7b\n        \"totalLinks\": 8,\n        \"highRiskLinks\": 2,\n        \"statutes\": [\"list of statutes referenced\"]\n      \x7d\n    \x7d\n    "

/-- The multilingual-simplify prompt up to the interpolated document text. -/
def multilingualPromptP0 : String :=
  "\n    Provide clear, simplified summaries of this legal document in multiple Indian languages.\n    Make the content accessible to regular people, not just legal professionals.\n    \n    Document: "

/-- The multilingual-simplify prompt between the document text and the interpolated joined language list. -/
def multilingualPromptP1 : String :=
  "\n    \n    Provide summaries in: "

/-- The multilingual-simplify prompt between the language list and the JSON schema skeleton. -/
def multilingualPromptP2 : String :=
  "\n    \n    Return JSON with this structure:\n    "

/-- The JSON output schema skeleton of the multilingual-simplify prompt, exactly as hard-coded in the template literal.  It is a constant: no caller-supplied language is interpolated into it. -/
def multilingualSchemaSkeleton : String :=
  "\x7b\n      \"summaries\": \x7b\n        \"hindi\": \"Hindi summary in Devanagari script\",\n        \"tamil\": \"Tamil summary in Tamil script\",\n        \"telugu\": \"Telugu summary in Telugu script\",\n        \"bengali\": \"Bengali summary in Bengali script\",\n        \"marathi\": \"Marathi summary in Devanagari script\"\n      \x7d,\n      \"keyPoints\": \x7b\n        \"hindi\": [\"key point 1\", \"key point 2\"],\n        \"tamil\": [\"key point 1\", \"key point 2\"],\n        \"telugu\": [\"key point 1\", \"key point 2\"],\n        \"bengali\": [\"key point 1\", \"key point 2\"],\n        \"marathi\": [\"key point 1\", \"key point 2\"]\n      \x7d,\n      \"warnings\": \x7b\n        \"hindi\": \"Important warnings in Hindi\",\n        \"tamil\": \"Important warnings in Tamil\",\n        \"telugu\": \"Important warnings in Telugu\",\n        \"bengali\": \"Important warnings in Bengali\",\n        \"marathi\": \"Important warnings in Marathi\"\n      \x7d\n    \x7d"

/-- The tail of the multilingual-simplify prompt after the schema skeleton. -/
def multilingualPromptEnd : String :=
  "\n    "

/-- The translate prompt up to the first interpolated target language. -/
def translatePromptP0 : String :=
  "\n    Translate this legal text to "

/-- The translate prompt between the target language and the text. -/
def translatePromptP1 : String :=
  " while maintaining legal accuracy and context.\n    Ensure legal terms are properly translated and culturally appropriate.\n    \n    Text: "

/-- The translate prompt between the text and the second interpolated target language. -/
def translatePromptP2 : String :=
  "\n    Target Language: "

/-- The translate prompt after the second target language. -/
def translatePromptP3 : String :=
  "\n    \n    Provide:\n    1. Accurate translation\n    2. Any cultural or legal context notes\n    3. Important terms that need special attention\n    "

/-- The process-bail-document prompt up to the interpolated extracted text. -/
def bailPromptPre : String :=
  "\n    Analyze this bail-related legal document and extract structured information.\n    Focus on Indian bail laws and procedures.\n    \n    Document: "

/-- The process-bail-document prompt after the extracted text. -/
def bailPromptPost : String :=
  "\n    \n    Extract and structure:\n    1. Document Type (Bail Bond, Surety Bond, Personal Bond, etc.)\n    2. Defendant Information (Name, Age, Address, etc.)\n    3. Bail Amount and Conditions\n    4. Surety Information (if applicable)\n    5. Court Information (Name, Location, Case Number)\n    6. Important Dates (Hearing dates, Bond execution date)\n    7. Special Conditions or Restrictions\n    8. Risk Assessment based on Indian law\n    9. Compliance Requirements\n    10. Next Steps for the defendant\n    \n    Return structured JSON with all relevant information.\n    "
/-- The analyze-document `analysisPrompt` template. -/
def analysisPrompt (documentText : String) : String :=
  analysisPromptPre ++ documentText ++ analysisPromptPost

/-- The simplify prompt template. -/
def simplifyPrompt (language text : String) : String :=
  simplifyPromptP0 ++ language ++ simplifyPromptP1 ++ text ++ simplifyPromptP2

/-- The detect-red-flags prompt template. -/
def redFlagsPrompt (text : String) : String :=
  redFlagsPromptPre ++ text ++ redFlagsPromptPost

/-- The tag-clauses prompt template. -/
def tagClausesPrompt (text : String) : String :=
  tagClausesPromptPre ++ text ++ tagClausesPromptPost

/-- The link-statutes prompt template. -/
def linkStatutesPrompt (text : String) : String :=
  linkStatutesPromptPre ++ text ++ linkStatutesPromptPost

/-- The multilingual-simplify prompt template: the caller-supplied
languages are joined with a comma (`languages.join(", ")`) and
interpolated into the instructions; the schema skeleton is the fixed
constant. -/
def multilingualPrompt (text : String) (languages : List String) : String :=
  multilingualPromptP0 ++ text ++ multilingualPromptP1 ++
    String.intercalate ", " languages ++ multilingualPromptP2 ++
    multilingualSchemaSkeleton ++ multilingualPromptEnd

/-- The translate prompt template (the target language is interpolated
twice). -/
def translatePrompt (text targetLanguage : String) : String :=
  translatePromptP0 ++ targetLanguage ++ translatePromptP1 ++ text ++
    translatePromptP2 ++ targetLanguage ++ translatePromptP3

/-- The process-bail-document prompt template. -/
def bailPrompt (text : String) : String :=
  bailPromptPre ++ text ++ bailPromptPost

/-! ## Response validation (the per-endpoint parse/fallback blocks) -/

/-- The analyze-document response body: the parsed model output when
`JSON.parse` succeeds, else the hard-coded fallback object carrying the
raw model text in `simplifiedSummary` and `multilingualSummary.english`. -/
def analyzeDocumentValidate (analysis : String) : Json :=
  match jsonParse analysis with
  | some parsedAnalysis => parsedAnalysis
  | none =>
    Json.obj
      [("redFlags", Json.arr []),
       ("clauseTags", Json.arr []),
       ("statuteLinks", Json.arr []),
       ("riskAssessment", Json.obj
         [("overallRisk", Json.str "medium"),
          ("score", Json.num "50"),
          ("concerns", Json.arr [])]),
       ("simplifiedSummary", Json.str analysis),
       ("multilingualSummary", Json.obj
         [("english", Json.str analysis),
          ("hindi", Json.str "Analysis not available in Hindi")]),
       ("recommendations", Json.arr
         [Json.str "Please review the document manually"])]

/-- The single diagnostic entry of the detect-red-flags fallback. -/
def redFlagDiagEntry : Json :=
  Json.obj
    [("type", Json.str "analysis_error"),
     ("severity", Json.str "low"),
     ("description", Json.str "Could not parse red flag analysis"),
     ("location", Json.str "N/A"),
     ("recommendation", Json.str "Please review the document manually"),
     ("indianLawReference", Json.str "N/A")]

/-- The detect-red-flags response body: the parsed model output under the
`redFlags` key when `JSON.parse` succeeds, else the fallback list with
the one diagnostic entry. -/
def detectRedFlagsValidate (response : String) : Json :=
  match jsonParse response with
  | some redFlags => Json.obj [("redFlags", redFlags)]
  | none => Json.obj [("redFlags", Json.arr [redFlagDiagEntry])]

/-- The tag-clauses response body: the parsed model output when
`JSON.parse` succeeds, else the fixed empty fallback. -/
def tagClausesValidate (response : String) : Json :=
  match jsonParse response with
  | some clauseTags => clauseTags
  | none =>
    Json.obj
      [("clauseTags", Json.arr []),
       ("summary", Json.obj
         [("totalClauses", Json.num "0"),
          ("highRiskClauses", Json.num "0"),
          ("categories", Json.arr [])])]

/-- The link-statutes response body: the parsed model output when
`JSON.parse` succeeds, else the fixed empty fallback. -/
def linkStatutesValidate (response : String) : Json :=
  match jsonParse response with
  | some statuteLinks => statuteLinks
  | none =>
    Json.obj
      [("statuteLinks", Json.arr []),
       ("summary", Json.obj
         [("totalLinks", Json.num "0"),
          ("highRiskLinks", Json.num "0"),
          ("statutes", Json.arr [])])]

/-- The multilingual-simplify response body: the parsed model output when
`JSON.parse` succeeds, else the fallback carrying the request text (not
the model output) under `summaries.english`. -/
def multilingualValidate (text response : String) : Json :=
  match jsonParse response with
  | some multilingualSummary => multilingualSummary
  | none =>
    Json.obj
      [("summaries", Json.obj [("english", Json.str text)]),
       ("keyPoints", Json.obj
         [("english", Json.arr [Json.str "Please review manually"])]),
       ("warnings", Json.obj
         [("english", Json.arr [Json.str "Manual review recommended"])])]

/-- The process-bail-document response body: the parsed model output when
`JSON.parse` succeeds, else the fallback carrying the extracted document
text in `extractedText` and the raw model output in `analysis`. -/
def bailValidate (text bailData : String) : Json :=
  match jsonParse bailData with
  | some parsedBailData => parsedBailData
  | none =>
    Json.obj
      [("documentType", Json.str "Bail Document"),
       ("extractedText", Json.str text),
       ("analysis", Json.str bailData)]

/-! ## Request handlers -/

/-- Handler of `POST /api/analyze-document`: optional body text, optional uploaded
file.  A supplied file is extracted first and its text replaces the body
text; a falsy document text is rejected with 400; extraction or gateway
failures give the handler's generic 500. -/
def analyzeDocument (lib : ExtractOracles) (model : ModelFn)
    (text : Option String) (file : Option FileUpload) : HttpResponse :=
  let extracted : Except String (Option String) :=
    match file with
    | some f => (extractTextFromFile lib f).map some
    | none => .ok text
  match extracted with
  | .error _ => ⟨500, errJson "Failed to analyze document"⟩
  | .ok documentText =>
    if jsTruthy documentText then
      match model (analysisPrompt (documentText.getD "")) with
      | .ok analysis => ⟨200, analyzeDocumentValidate analysis⟩
      | .error _ => ⟨500, errJson "Failed to analyze document"⟩
    else ⟨400, errJson "Document text or file is required"⟩

/-- Handler of `POST /api/simplify`. -/
def simplify (model : ModelFn) (text language : Option String) :
    HttpResponse :=
  if jsTruthy text then
    match model (simplifyPrompt (language.getD "en") (text.getD "")) with
    | .ok simplifiedText =>
      ⟨200, Json.obj [("simplifiedText", Json.str simplifiedText)]⟩
    | .error _ => ⟨500, errJson "Failed to simplify text"⟩
  else ⟨400, errJson "Text is required"⟩

/-- Handler of `POST /api/detect-red-flags`. -/
def detectRedFlags (model : ModelFn) (text : Option String) : HttpResponse :=
  if jsTruthy text then
    match model (redFlagsPrompt (text.getD "")) with
    | .ok response => ⟨200, detectRedFlagsValidate response⟩
    | .error _ => ⟨500, errJson "Failed to detect red flags"⟩
  else ⟨400, errJson "Text is required"⟩

/-- Handler of `POST /api/tag-clauses`. -/
def tagClauses (model : ModelFn) (text : Option String) : HttpResponse :=
  if jsTruthy text then
    match model (tagClausesPrompt (text.getD "")) with
    | .ok response => ⟨200, tagClausesValidate response⟩
    | .error _ => ⟨500, errJson "Failed to tag clauses"⟩
  else ⟨400, errJson "Text is required"⟩

/-- Handler of `POST /api/link-statutes`. -/
def linkStatutes (model : ModelFn) (text : Option String) : HttpResponse :=
  if jsTruthy text then
    match model (linkStatutesPrompt (text.getD "")) with
    | .ok response => ⟨200, linkStatutesValidate response⟩
    | .error _ => ⟨500, errJson "Failed to link statutes"⟩
  else ⟨400, errJson "Text is required"⟩

/-- The default language list of `POST /api/multilingual-simplify`. -/
def defaultLanguages : List String :=
  ["hindi", "tamil", "telugu", "bengali", "marathi"]

/-- Handler of `POST /api/multilingual-simplify`. -/
def multilingualSimplify (model : ModelFn) (text : Option String)
    (languages : Option (List String)) : HttpResponse :=
  if jsTruthy text then
    match model (multilingualPrompt (text.getD "")
        (languages.getD defaultLanguages)) with
    | .ok response => ⟨200, multilingualValidate (text.getD "") response⟩
    | .error _ => ⟨500, errJson "Failed to create multilingual summary"⟩
  else ⟨400, errJson "Text is required"⟩

/-- Handler of `POST /api/translate`: rejected with 400 when `text` or
`targetLanguage` is falsy. -/
def translateText (model : ModelFn) (text targetLanguage : Option String) :
    HttpResponse :=
  if jsTruthy text && jsTruthy targetLanguage then
    match model (translatePrompt (text.getD "") (targetLanguage.getD "")) with
    | .ok translatedText =>
      ⟨200, Json.obj [("translatedText", Json.str translatedText)]⟩
    | .error _ => ⟨500, errJson "Failed to translate text"⟩
  else ⟨400, errJson "Text and target language are required"⟩

/-- Handler of `POST /api/process-bail-document`: requires an uploaded file; the
extracted text is sent to the model and the response validated. -/
def processBailDocument (lib : ExtractOracles) (model : ModelFn)
    (file : Option FileUpload) : HttpResponse :=
  match file with
  | none => ⟨400, errJson "File is required"⟩
  | some f =>
    match extractTextFromFile lib f with
    | .error _ => ⟨500, errJson "Failed to process bail document"⟩
    | .ok text =>
      match model (bailPrompt text) with
      | .ok bailData => ⟨200, bailValidate text bailData⟩
      | .error _ => ⟨500, errJson "Failed to process bail document"⟩

/-! ## Schema predicates and JSON accessors -/

/-- The value of a field of a JSON object. -/
def getField (k : String) : Json → Option Json
  | Json.obj fields => (fields.find? (fun p => p.1 == k)).map Prod.snd
  | _ => none

/-- The key list of a JSON object. -/
def objKeys : Json → Option (List String)
  | Json.obj fields => some (fields.map Prod.fst)
  | _ => none

/-- Does the object have field `k` with a string value? -/
def hasStrField (j : Json) (k : String) : Bool :=
  match getField k j with
  | some (Json.str _) => true
  | _ => false

/-- One red-flag record of the canonical detect-red-flags schema (the
shape the prompt asks the model for): an object with string fields
`type`, `severity` (in high/medium/low), `description`, `location` and
`recommendation`. -/
def isRedFlagRecord (j : Json) : Bool :=
  hasStrField j "type" &&
  (match getField "severity" j with
   | some (Json.str s) => s == "high" || s == "medium" || s == "low"
   | _ => false) &&
  hasStrField j "description" &&
  hasStrField j "location" &&
  hasStrField j "recommendation"

/-- The canonical detect-red-flags result shape: an array of red-flag
records. -/
def isRedFlagArray : Json → Bool
  | Json.arr items => items.all isRedFlagRecord
  | _ => false

/-- The language keys of the `summaries` object of a JSON schema
skeleton given as a string. -/
def summariesKeysOf (skeleton : String) : Option (List String) :=
  match jsonParse skeleton with
  | some j =>
    match getField "summaries" j with
    | some inner => objKeys inner
    | none => none
  | none => none

example : summariesKeysOf multilingualSchemaSkeleton =
    some ["hindi", "tamil", "telugu", "bengali", "marathi"] := rfl

/-! ## Helper lemmas -/

/-- The character data of a concatenation of strings. -/
theorem stringDataAppend (a b : String) : (a ++ b).data = a.data ++ b.data := by
  cases a; cases b; rfl

/-- A concrete oracle assignment for the external document libraries,
used by witnesses. -/
def constLib : ExtractOracles :=
  ⟨fun _ => Except.error "pdf library failure",
   fun _ => Except.error "mammoth failure",
   fun s => s⟩

/-! ## Claims -/

/-- Claim C1 (counterexample): for detect-red-flags the claim says the
validated response always has the shape `{redFlags: array of red-flag
records}` even when the model output parses as JSON of another shape;
but for raw model output `"42"` the response is `{redFlags: 42}`, and
the number `42` is not an array of red-flag records. -/
theorem claim1_counterexample :
    detectRedFlagsValidate "42" = Json.obj [("redFlags", Json.num "42")] ∧
    isRedFlagArray (Json.num "42") = false :=
  ⟨rfl, rfl⟩

/-- Claim C1 (amended): the detect-red-flags response validation never
fails; when the raw output fails to parse as JSON the result is the
canonical fallback `{redFlags: [one diagnostic record]}`, which does
match the red-flag-array schema, but when the raw output parses as any
JSON value that value is wrapped under `redFlags` as-is, so the shape
need not match the canonical schema. -/
theorem claim1_amended (raw : String) :
    (jsonParse raw = none →
      detectRedFlagsValidate raw =
        Json.obj [("redFlags", Json.arr [redFlagDiagEntry])] ∧
      isRedFlagArray (Json.arr [redFlagDiagEntry]) = true) ∧
    (∀ v : Json, jsonParse raw = some v →
      detectRedFlagsValidate raw = Json.obj [("redFlags", v)]) := by
  constructor
  · intro h
    exact ⟨by simp [detectRedFlagsValidate, h], rfl⟩
  · intro v h
    simp [detectRedFlagsValidate, h]

/-- Witness for C1 (amended), at raw outputs `"no-json-here"` (parse
failure) and `"true"` (parse success of a non-array value). -/
theorem claim1_amended_witness :
    detectRedFlagsValidate "no-json-here" =
      Json.obj [("redFlags", Json.arr [redFlagDiagEntry])] ∧
    detectRedFlagsValidate "true" = Json.obj [("redFlags", Json.bool true)] :=
  ⟨((claim1_amended "no-json-here").1 rfl).1,
   (claim1_amended "true").2 (Json.bool true) rfl⟩

/-- Claim C2 (counterexample): the claim says every parsing task's
fallback carries the raw model text in a designated free-text field; but
the detect-red-flags, tag-clauses and link-statutes fallbacks are
identical for the two distinct non-JSON raw outputs `"oops"` and
`"uh oh"`, so they cannot carry the raw model text anywhere. -/
theorem claim2_counterexample :
    jsonParse "oops" = none ∧ jsonParse "uh oh" = none ∧
    ("oops" : String) ≠ "uh oh" ∧
    detectRedFlagsValidate "oops" = detectRedFlagsValidate "uh oh" ∧
    tagClausesValidate "oops" = tagClausesValidate "uh oh" ∧
    linkStatutesValidate "oops" = linkStatutesValidate "uh oh" :=
  ⟨rfl, rfl, by decide, rfl, rfl, rfl⟩

/-- Claim C2 (amended): whenever the raw model output fails to parse as
JSON, each task's fallback is deterministic and schema-conformant;
analyze-document carries the raw model text in `simplifiedSummary` (and
`multilingualSummary.english`) and process-bail-document carries it in
`analysis`, but detect-red-flags, tag-clauses and link-statutes return
fixed fallbacks without the raw text, and multilingual-simplify carries
the caller's input text, not the model output. -/
theorem claim2_amended (text raw : String) (hp : jsonParse raw = none) :
    analyzeDocumentValidate raw =
      Json.obj
        [("redFlags", Json.arr []),
         ("clauseTags", Json.arr []),
         ("statuteLinks", Json.arr []),
         ("riskAssessment", Json.obj
           [("overallRisk", Json.str "medium"),
            ("score", Json.num "50"),
            ("concerns", Json.arr [])]),
         ("simplifiedSummary", Json.str raw),
         ("multilingualSummary", Json.obj
           [("english", Json.str raw),
            ("hindi", Json.str "Analysis not available in Hindi")]),
         ("recommendations", Json.arr
           [Json.str "Please review the document manually"])] ∧
    bailValidate text raw =
      Json.obj
        [("documentType", Json.str "Bail Document"),
         ("extractedText", Json.str text),
         ("analysis", Json.str raw)] ∧
    detectRedFlagsValidate raw =
      Json.obj [("redFlags", Json.arr [redFlagDiagEntry])] ∧
    tagClausesValidate raw =
      Json.obj
        [("clauseTags", Json.arr []),
         ("summary", Json.obj
           [("totalClauses", Json.num "0"),
            ("highRiskClauses", Json.num "0"),
            ("categories", Json.arr [])])] ∧
    linkStatutesValidate raw =
      Json.obj
        [("statuteLinks", Json.arr []),
         ("summary", Json.obj
           [("totalLinks", Json.num "0"),
            ("highRiskLinks", Json.num "0"),
            ("statutes", Json.arr [])])] ∧
    multilingualValidate text raw =
      Json.obj
        [("summaries", Json.obj [("english", Json.str text)]),
         ("keyPoints", Json.obj
           [("english", Json.arr [Json.str "Please review manually"])]),
         ("warnings", Json.obj
           [("english", Json.arr [Json.str "Manual review recommended"])])] := by
  refine ⟨?_, ?_, ?_, ?_, ?_, ?_⟩ <;>
    simp [analyzeDocumentValidate, bailValidate, detectRedFlagsValidate,
      tagClausesValidate, linkStatutesValidate, multilingualValidate, hp]

/-- Witness for C2 (amended), at input text `"the rental deed"` and raw
model output `"model replied in prose"`. -/
theorem claim2_amended_witness :
    bailValidate "the rental deed" "model replied in prose" =
      Json.obj
        [("documentType", Json.str "Bail Document"),
         ("extractedText", Json.str "the rental deed"),
         ("analysis", Json.str "model replied in prose")] :=
  (claim2_amended "the rental deed" "model replied in prose" rfl).2.1

/-- Claim C3: for detect-red-flags, whenever the model returns raw
output that is not valid JSON, the 200 response is a `redFlags` list
containing exactly the one diagnostic entry of type `analysis_error`
and severity `low`. -/
theorem claim3 (model : ModelFn) (t raw : String)
    (ht : t.isEmpty = false)
    (hm : model (redFlagsPrompt t) = Except.ok raw)
    (hp : jsonParse raw = none) :
    detectRedFlags model (some t) =
      ⟨200, Json.obj [("redFlags", Json.arr [redFlagDiagEntry])]⟩ := by
  simp [detectRedFlags, jsTruthy, ht, hm, detectRedFlagsValidate, hp]

/-- Witness for C3, at the raw model output `"not json"` of the spec. -/
theorem claim3_witness :
    detectRedFlags (fun _ => Except.ok "not json")
        (some "Tenant shall pay a 50% late fee.") =
      ⟨200, Json.obj [("redFlags", Json.arr [redFlagDiagEntry])]⟩ :=
  claim3 (fun _ => Except.ok "not json") "Tenant shall pay a 50% late fee."
    "not json" rfl rfl rfl

/-- Claim C4 (counterexample): the claim says the gateway call has a
mandatory timeout and classifies a timeout as a failure kind distinct
from a transport error; but the axios request configuration sets no
timeout, and a timed-out call and a transport failure produce the very
same error. -/
theorem claim4_counterexample :
    (grokRequestConfig "test-key").timeout = none ∧
    generateResponse (some "test-key") (AxiosOutcome.err AxiosFailure.timeout) =
      generateResponse (some "test-key")
        (AxiosOutcome.err AxiosFailure.transport) :=
  ⟨rfl, rfl⟩

/-- Claim C4 (amended): the gateway sets no timeout on the model call,
and every failed call — timeout, transport or HTTP error alike — is
rethrown as the single generic API error, indistinguishable to callers;
only the missing-API-key case is a distinct failure. -/
theorem claim4_amended (k : String) (e : AxiosFailure)
    (hk : k.isEmpty = false) :
    (grokRequestConfig k).timeout = none ∧
    generateResponse (some k) (AxiosOutcome.err e) =
      Except.error (GrokError.apiError "Failed to get response from Grok API") ∧
    (∀ o : AxiosOutcome, generateResponse none o =
      Except.error (GrokError.configError "Grok API key not configured")) := by
  refine ⟨rfl, ?_, fun o => rfl⟩
  simp [generateResponse, jsTruthy, hk]

/-- Witness for C4 (amended), at a concrete key and a timeout failure. -/
theorem claim4_amended_witness :
    generateResponse (some "api-key") (AxiosOutcome.err AxiosFailure.timeout) =
      Except.error
        (GrokError.apiError "Failed to get response from Grok API") :=
  (claim4_amended "api-key" AxiosFailure.timeout rfl).2.1

/-- Claim C5: a request missing a required input is rejected with 400
and no model call is attempted: simplify with no text returns the 400
error independently of the model, and translate returns its 400 error
whenever text or targetLanguage is falsy, again independently of the
model. -/
theorem claim5 :
    (∀ (m₁ m₂ : ModelFn) (language : Option String),
      simplify m₁ none language = ⟨400, errJson "Text is required"⟩ ∧
      simplify m₁ none language = simplify m₂ none language) ∧
    (∀ (m₁ m₂ : ModelFn) (text targetLanguage : Option String),
      jsTruthy text = false ∨ jsTruthy targetLanguage = false →
      translateText m₁ text targetLanguage =
        ⟨400, errJson "Text and target language are required"⟩ ∧
      translateText m₁ text targetLanguage =
        translateText m₂ text targetLanguage) := by
  constructor
  · intro m₁ m₂ language
    exact ⟨rfl, rfl⟩
  · intro m₁ m₂ text targetLanguage h
    cases h with
    | inl hx => exact ⟨by simp [translateText, hx], by simp [translateText, hx]⟩
    | inr hx => exact ⟨by simp [translateText, hx], by simp [translateText, hx]⟩

/-- Witness for C5, at a translate request with text but no target
language, under two different models. -/
theorem claim5_witness :
    translateText (fun _ => Except.ok "answer") (some "hello") none =
      ⟨400, errJson "Text and target language are required"⟩ :=
  (claim5.2 (fun _ => Except.ok "answer")
    (fun _ => Except.error (GrokError.apiError "down")) (some "hello") none
    (Or.inr rfl)).1

/-- Claim C6 (counterexample): the claim says the language keys of the
JSON schema skeleton in the multilingual-simplify prompt are exactly the
caller-supplied languages; but for the caller-supplied list
`["english"]` the prompt embeds the fixed skeleton whose `summaries`
keys are the five default languages, not `["english"]`. -/
theorem claim6_counterexample :
    multilingualPrompt "doc" ["english"] =
      multilingualPromptP0 ++ "doc" ++ multilingualPromptP1 ++ "english" ++
        multilingualPromptP2 ++ multilingualSchemaSkeleton ++
        multilingualPromptEnd ∧
    summariesKeysOf multilingualSchemaSkeleton = some defaultLanguages ∧
    defaultLanguages ≠ ["english"] :=
  ⟨rfl, rfl, by decide⟩

/-- Claim C6 (amended): the multilingual-simplify prompt interpolates
the caller-supplied language list (joined with commas) into the
natural-language instructions, but the JSON schema skeleton is a fixed
constant occurring verbatim in every prompt, and its `summaries`
language keys are always the five default languages, whatever the
caller supplied. -/
theorem claim6_amended (text : String) (languages : List String) :
    (String.intercalate ", " languages).data <:+:
      (multilingualPrompt text languages).data ∧
    multilingualSchemaSkeleton.data <:+:
      (multilingualPrompt text languages).data ∧
    summariesKeysOf multilingualSchemaSkeleton = some defaultLanguages := by
  refine ⟨⟨(multilingualPromptP0 ++ text ++ multilingualPromptP1).data,
      (multilingualPromptP2 ++ multilingualSchemaSkeleton ++
        multilingualPromptEnd).data, ?_⟩,
    ⟨(multilingualPromptP0 ++ text ++ multilingualPromptP1 ++
        String.intercalate ", " languages ++ multilingualPromptP2).data,
      multilingualPromptEnd.data, ?_⟩, rfl⟩ <;>
    simp [multilingualPrompt, stringDataAppend]

/-- Claim C7: for every uploaded file whose declared MIME type is not
PDF, Word or HTML, extraction decodes the raw bytes as UTF-8 verbatim;
in particular the bytes of `"Hello world"` with MIME `text/plain`
extract to exactly `"Hello world"`. -/
theorem claim7 :
    (∀ (lib : ExtractOracles) (file : FileUpload),
      file.mimetype ≠ "application/pdf" →
      file.mimetype ≠ wordDocxMime →
      file.mimetype ≠ "application/msword" →
      file.mimetype ≠ "text/html" →
      extractTextFromFile lib file = Except.ok (utf8Decode file.buffer)) ∧
    (∀ lib : ExtractOracles,
      extractTextFromFile lib
          ⟨"note.txt", [72, 101, 108, 108, 111, 32, 119, 111, 114, 108, 100],
           "text/plain"⟩ =
        Except.ok "Hello world") := by
  constructor
  · intro lib file h1 h2 h3 h4
    unfold extractTextFromFile
    rw [if_neg h1, if_neg (not_or.mpr ⟨h2, h3⟩), if_neg h4]
  · intro lib
    rfl

/-- Witness for C7, at a file of bytes `[104, 105]` with MIME
`application/octet-stream`. -/
theorem claim7_witness :
    extractTextFromFile constLib
        ⟨"blob.bin", [104, 105], "application/octet-stream"⟩ =
      Except.ok "hi" := by
  rw [claim7.1 constLib ⟨"blob.bin", [104, 105], "application/octet-stream"⟩
    (by decide) (by decide) (by decide) (by decide)]
  rfl

/-- Claim C8: extraction is deterministic and depends only on the bytes
and the declared MIME type: two uploads with the same buffer and the
same MIME type (the original file name may differ) extract to the same
result. -/
theorem claim8 (lib : ExtractOracles) (f g : FileUpload)
    (hb : f.buffer = g.buffer) (hm : f.mimetype = g.mimetype) :
    extractTextFromFile lib f = extractTextFromFile lib g := by
  obtain ⟨nf, bf, mf⟩ := f
  obtain ⟨ng, bg, mg⟩ := g
  simp only at hb hm
  subst hb; subst hm
  rfl

/-- Witness for C8, at two files equal except for their names. -/
theorem claim8_witness :
    extractTextFromFile constLib ⟨"a.txt", [104, 105], "text/plain"⟩ =
      extractTextFromFile constLib ⟨"b.txt", [104, 105], "text/plain"⟩ :=
  claim8 constLib ⟨"a.txt", [104, 105], "text/plain"⟩
    ⟨"b.txt", [104, 105], "text/plain"⟩ rfl rfl

/-- Claim C9: on analyze-document, when a file is supplied and its
extraction yields the empty string, the request is rejected with 400
(`Document text or file is required`), whatever body text or model is
present, because the emptiness check runs on the extracted text. -/
theorem claim9 (lib : ExtractOracles) (model : ModelFn)
    (text : Option String) (f : FileUpload)
    (hx : extractTextFromFile lib f = Except.ok "") :
    analyzeDocument lib model text (some f) =
      ⟨400, errJson "Document text or file is required"⟩ := by
  simp [analyzeDocument, hx, Except.map, show jsTruthy (some "") = false from rfl]

/-- Witness for C9, at an empty text/plain file supplied together with
non-empty body text. -/
theorem claim9_witness :
    analyzeDocument constLib (fun _ => Except.ok "ignored")
        (some "body text") (some ⟨"empty.txt", [], "text/plain"⟩) =
      ⟨400, errJson "Document text or file is required"⟩ :=
  claim9 constLib (fun _ => Except.ok "ignored") (some "body text")
    ⟨"empty.txt", [], "text/plain"⟩ rfl

/-- Claim C10: on detect-red-flags, whenever the model's raw output
parses as any JSON value at all, that value is returned unchanged under
the `redFlags` key with no further validation; the fallback is taken
only when the parse fails. -/
theorem claim10 (model : ModelFn) (t raw : String) (v : Json)
    (ht : t.isEmpty = false)
    (hm : model (redFlagsPrompt t) = Except.ok raw)
    (hp : jsonParse raw = some v) :
    detectRedFlags model (some t) = ⟨200, Json.obj [("redFlags", v)]⟩ := by
  simp [detectRedFlags, jsTruthy, ht, hm, detectRedFlagsValidate, hp]

/-- Witness for C10, at the raw model output `"7"`, a JSON number that
is no red-flag list yet is passed through. -/
theorem claim10_witness :
    detectRedFlags (fun _ => Except.ok "7") (some "Sample clause.") =
      ⟨200, Json.obj [("redFlags", Json.num "7")]⟩ :=
  claim10 (fun _ => Except.ok "7") "Sample clause." "7" (Json.num "7")
    rfl rfl rfl
